import Mathlib

/-!
Verification of the gonb kernel message layer and process executor.

Shallow embedding of:
* the `kernel` package message code (`ComposedMsg`, `NewComposed`, the
  `Publish*` helpers, `PromptInput` / `DeliverInput`, `jupyterStreamWriter`);
* the `jpyexec` package executor (`Executor.Exec`, `Executor.done`, the
  interrupt-subscription callback, `WaitToKill`).

Modelling conventions:
* Go strings and byte slices are both modelled as `String` (a Go `string`
  is an immutable byte slice; only lengths and equality matter here).
* Go `map[string]any` values are modelled as association lists
  `List (String × JValue)`; a `nil` map and an empty map coincide, which
  is adequate because no verified operation distinguishes them.
* Effectful steps (socket sends, callback invocations, pipe closes,
  signals) are recorded in explicit effect-trace lists; external
  nondeterminism (pipe-creation failures, child exit status, the
  interrupted flag, timestamps and freshly generated uuids) enters as
  explicit oracle parameters.
* A Go runtime panic (method call on a nil interface, double close of a
  channel) is modelled as `Except.error ()`: the trace and result of the
  panicking call are discarded, exactly as a Go panic discards them.
-/

namespace GonbProof

/-- Dynamically typed JSON-ish value, modelling Go `any` as it is used by
the message layer: the code only ever tests for `string` (the
`display_id` type assertion), so a few representative variants suffice. -/
inductive JValue
  | str (s : String)
  | bool (b : Bool)
  | int (n : Int)
  | other
deriving DecidableEq, Repr

/-- Type `MIMEMap` models the Go `MIMEMap = map[string]any` as an association
list. -/
def MIMEMap := List (String × JValue)
deriving DecidableEq, Repr

/-- Header of a ZMQ message, mirroring `zmqMsgHeader` in the kernel
package. -/
structure zmqMsgHeader where
  MsgID : String
  Username : String
  Session : String
  MsgType : String
  ProtocolVersion : String
  Timestamp : String
deriving DecidableEq, Repr

/-- Message content payloads used by the verified operations. Go stores
`any` here; this closed set covers the payloads the embedded functions
build. -/
inductive MsgContent
  | empty
  | displayBundle (data metadata transient : MIMEMap)
  | streamText (stream text : String)
  | keyed (m : MIMEMap)
deriving DecidableEq, Repr

/-- An entire message in high-level structure, mirroring `ComposedMsg`. -/
structure ComposedMsg where
  Header : zmqMsgHeader
  ParentHeader : zmqMsgHeader
  Metadata : MIMEMap
  Content : MsgContent
deriving DecidableEq, Repr

/-- The rich-display payload triple, mirroring the Go `Data` struct
(fields `Data`, `Metadata`, `Transient`). -/
structure Data where
  Data : MIMEMap
  Metadata : MIMEMap
  Transient : MIMEMap
deriving DecidableEq, Repr

/-- A received message with its return identities, mirroring
`MessageImpl` (the back-reference to the kernel is passed explicitly as a
`Kernel` state parameter in the operations below). -/
structure MessageImpl where
  err : Option String
  Composed : ComposedMsg
  Identities : List String
deriving DecidableEq, Repr

/-- Kernel state touched by the verified message operations: the set of
known display-block ids (`KnownBlockIds`), the single pending-input
registration (`stdinMsg` / `stdinFn`, with callbacks named by opaque
numeric ids), and the execution counter. The `Kernel` struct itself is
declared in the kernel package; these are exactly the fields the embedded
operations read and write. -/
structure Kernel where
  KnownBlockIds : List String
  stdinMsg : Option MessageImpl
  stdinFn : Option Nat
  ExecCounter : Int
deriving DecidableEq, Repr

/-- Protocol version constant of the kernel package. Its concrete value
is irrelevant to every verified property. -/
def ProtocolVersion : String := "5.3"

/-- Effects emitted by the message-layer operations: a send of a composed
message on a named channel ("iopub", "shell" or "stdin"), or the
invocation of a registered input callback with the original requesting
message and the incoming answer message. -/
inductive KEffect
  | send (channel : String) (msg : ComposedMsg)
  | invokeCallback (fn : Nat) (original input : MessageImpl)
deriving DecidableEq, Repr

/-- Function `NewComposed` builds a new `ComposedMsg` responding to a parent
message, mirroring `NewComposed` in the kernel package: the parent header
is copied whole into `ParentHeader`, session and username are copied from
the parent's header, the message type and protocol version are set, and
the timestamp and the freshly generated uuid (both external inputs) fill
`Timestamp` and `MsgID`. The uuid-generation failure branch is not
modelled (uuid generation is treated as always succeeding). -/
def NewComposed (msgType : String) (parent : ComposedMsg) (now freshId : String) : ComposedMsg :=
  { Header := { MsgID := freshId
              , Username := parent.Header.Username
              , Session := parent.Header.Session
              , MsgType := msgType
              , ProtocolVersion := ProtocolVersion
              , Timestamp := now }
  , ParentHeader := parent.Header
  , Metadata := []
  , Content := .empty }

/-- Function `Publish` sends a newly composed message over the IOPub channel,
mirroring `MessageImpl.Publish`. Transport-level send errors from the
zmq socket are independent of the logic verified here and are not
modelled; the effect records the publish. -/
def MessageImpl.Publish (m : MessageImpl) (msgType : String) (content : MsgContent)
    (now freshId : String) : List KEffect :=
  [.send "iopub" { NewComposed msgType m.Composed now freshId with Content := content }]

/-- Function `EnsureMIMEMap` returns an empty map for Go's `nil` map; since the
model identifies `nil` with the empty list, it is the identity. -/
def EnsureMIMEMap (bundle : MIMEMap) : MIMEMap := bundle

/-- Function `PublishDisplayData` publishes data of arbitrary data-types,
mirroring `PublishDisplayData`: a `nil` message is ignored, otherwise the
bundle is published with message type `"display_data"`. -/
def PublishDisplayData (msg : Option MessageImpl) (data : Data)
    (now freshId : String) : List KEffect × Option String :=
  match msg with
  | none => ([], none)
  | some m =>
      (m.Publish "display_data"
        (.displayBundle data.Data (EnsureMIMEMap data.Metadata) (EnsureMIMEMap data.Transient))
        now freshId, none)

/-- Function `PublishExecuteResult` publishes with the `"execute_result"` message
type, mirroring `PublishExecuteResult` (the kernel's execution counter is
carried in the content in Go; the content model keeps only the bundle). -/
def PublishExecuteResult (msg : MessageImpl) (data : Data)
    (now freshId : String) : List KEffect × Option String :=
  (msg.Publish "execute_result"
    (.displayBundle data.Data (EnsureMIMEMap data.Metadata) (EnsureMIMEMap data.Transient))
    now freshId, none)

/-- Function `PublishData` mirrors `PublishData` in the kernel package: the branch
that would select `PublishExecuteResult` when the parent message type is
`"execute_request"` is commented out in the source, so the call always
forwards to `PublishDisplayData`. -/
def PublishData (msg : Option MessageImpl) (data : Data)
    (now freshId : String) : List KEffect × Option String :=
  PublishDisplayData msg data now freshId

/-- Function `PublishUpdateDisplayData` mirrors `PublishUpdateDisplayData`:
it requires `Transient["display_id"]` to be present and a string
(otherwise it returns an error having changed and published nothing);
an unseen display id is inserted into `KnownBlockIds` and published with
type `"display_data"`, a seen one is published with type
`"update_display_data"`. Note the transient map is passed through
without `EnsureMIMEMap`, exactly as in the source. -/
def PublishUpdateDisplayData (k : Kernel) (msg : MessageImpl) (data : Data)
    (now freshId : String) : Kernel × List KEffect × Option String :=
  match data.Transient.lookup "display_id" with
  | none => (k, [], some "PublishUpdateDisplayData without a Trasient[display_id] set!?")
  | some (.str displayId) =>
      let (msgType, k') :=
        if k.KnownBlockIds.contains displayId then
          ("update_display_data", k)
        else
          ("display_data", { k with KnownBlockIds := displayId :: k.KnownBlockIds })
      (k', msg.Publish msgType
             (.displayBundle data.Data (EnsureMIMEMap data.Metadata) data.Transient)
             now freshId, none)
  | some _ => (k, [], some "PublishUpdateDisplayData call with a Trasient[display_id] that is not string")

/-- Message types of the sends in an effect trace, in order. -/
def sentTypes (es : List KEffect) : List String :=
  es.filterMap fun e =>
    match e with
    | .send _ m => some m.Header.MsgType
    | _ => none

/-- Threads a sequence of `PublishUpdateDisplayData` calls through the
kernel state, collecting the published message types in order (the
timestamp/uuid pair `nf` is reused; it does not influence types). -/
def puddSeq (k : Kernel) (msg : MessageImpl) (nf : String × String) :
    List Data → Kernel × List String
  | [] => (k, [])
  | d :: ds =>
      let r := PublishUpdateDisplayData k msg d nf.1 nf.2
      let rest := puddSeq r.1 msg nf ds
      (rest.1, sentTypes r.2.1 ++ rest.2)

/-- Function `PromptInput` mirrors `MessageImpl.PromptInput`: it composes an
`input_request` message carrying the prompt and password flag, sends it
on the stdin channel (`sendOk` is the outcome of the socket send), and —
only if the send succeeded — registers the message and callback in the
kernel's single pending-input slot, overwriting any previous
registration. On send failure it returns the error with the kernel state
unchanged. -/
def PromptInput (k : Kernel) (m : MessageImpl) (prompt : String) (password : Bool)
    (onInput : Nat) (now freshId : String) (sendOk : Bool) :
    Kernel × List KEffect × Option String :=
  let inputRequest :=
    { NewComposed "input_request" m.Composed now freshId with
        Content := .keyed [("prompt", .str prompt), ("password", .bool password)] }
  if sendOk then
    ({ k with stdinMsg := some m, stdinFn := some onInput },
     [.send "stdin" inputRequest], none)
  else
    (k, [.send "stdin" inputRequest],
     some "MessageImpl.PromptInput(): sending input_request message")

/-- Function `DeliverInput` mirrors `MessageImpl.DeliverInput`: with no pending
registration it is a no-op returning nil; otherwise it invokes the
registered callback with the original requesting message and the
incoming message `m`, returning the callback's result (`cbResult`) and
leaving the registration in place. A registered message with a `nil`
callback function would be a Go panic (`Except.error`); `PromptInput`
always sets both together. -/
def DeliverInput (k : Kernel) (m : MessageImpl) (cbResult : Option String) :
    Except Unit (Kernel × List KEffect × Option String) :=
  match k.stdinMsg with
  | none => .ok (k, [], none)
  | some original =>
      match k.stdinFn with
      | none => .error ()
      | some fn => .ok (k, [.invokeCallback fn original m], cbResult)

/-- Function `PublishWriteStream` mirrors `PublishWriteStream`: a `nil` message is
only logged; otherwise a `"stream"` message carrying the stream name and
text is published (`sendOk` is the outcome of the socket send, whose
error the caller receives). -/
def PublishWriteStream (msg : Option MessageImpl) (stream data : String)
    (now freshId : String) (sendOk : Bool) : List KEffect × Option String :=
  match msg with
  | none => ([], none)
  | some m =>
      (m.Publish "stream" (.streamText stream data) now freshId,
       if sendOk then none else some "send failed")

/-- The `io.Writer` sink that forwards writes to the notebook front-end,
mirroring `jupyterStreamWriter`. -/
structure jupyterStreamWriter where
  stream : String
  msg : Option MessageImpl
deriving DecidableEq, Repr

/-- Function `Write` mirrors `jupyterStreamWriter.Write`: it publishes the bytes
via `PublishWriteStream`, logs (and swallows) any publish error, and
returns the full input length with a nil error. -/
def jupyterStreamWriter.Write (w : jupyterStreamWriter) (p : String)
    (now freshId : String) (sendOk : Bool) : List KEffect × Nat × Option String :=
  let r := PublishWriteStream w.msg w.stream p now freshId sendOk
  (r.1, p.length, none)

/-! ## Process executor (`jpyexec` package) -/

/-- Effects emitted synchronously by `Executor.Exec` and
`Executor.done`: comms-handler notifications, interrupt
subscribe/unsubscribe, a streamed-text publish (via
`kernel.PublishWriteStream`), and the teardown steps of `done`.
Goroutine-spawning steps of `Exec` (the two stream copiers,
`handleJupyterInput`, `handleStaticInput`) run concurrently and are not
part of the synchronous trace. -/
inductive ExecEffect
  | programStart
  | subscribeInterrupt
  | unsubscribeInterrupt
  | publishStream (stream text : String)
  | cancelInput
  | closeStdin
  | closeDoneChan
  | closeStderr
  | closeStdout
  | programFinished
deriving DecidableEq, Repr

/-- Executor configuration frozen before `Exec`, restricted to the
fields the verified control flow reads: `millisecondsToInput` (−1 unless
`WithInputs`/`WithPassword` was called), `useNamedPipes`, and whether a
comms handler is set. -/
structure ExecConfig where
  millisecondsToInput : Int
  useNamedPipes : Bool
  hasCommsHandler : Bool
deriving DecidableEq, Repr

/-- Executor execution state, mirroring the state fields of `Executor`
that `done` reads: the three stdio pipe handles (`none` models a Go nil
interface, on which a method call panics), the lock-guarded `isDone`
flag, and whether `doneChan` has been closed. The configuration fields
are copied in because `done` consults them. -/
structure ExecState where
  millisecondsToInput : Int
  useNamedPipes : Bool
  hasCommsHandler : Bool
  cmdStdout : Option Unit
  cmdStderr : Option Unit
  cmdStdin : Option Unit
  isDone : Bool
  doneChanClosed : Bool
deriving DecidableEq, Repr

/-- State of the executor at entry to `Exec`, after `isDone = false` and
the fresh `doneChan` are set and before any pipe is created. -/
def initState (cfg : ExecConfig) : ExecState :=
  { millisecondsToInput := cfg.millisecondsToInput
  , useNamedPipes := cfg.useNamedPipes
  , hasCommsHandler := cfg.hasCommsHandler
  , cmdStdout := none
  , cmdStderr := none
  , cmdStdin := none
  , isDone := false
  , doneChanClosed := false }

/-- Function `done` mirrors `Executor.done` statement by statement (the mutex
serialises invocations, so each call is modelled as one atomic step):
an already-done executor returns immediately with no effects; otherwise
the flag is set, any pending input prompt is cancelled, the child's
stdin is closed (a Go panic — `Except.error` — if the handle is a nil
interface), the completion channel is closed (a Go panic if already
closed), the stdout/stderr read ends are closed (panics on nil
interfaces), and the comms handler, when configured together with named
pipes, is notified of the finish. A panic discards the trace, as in
Go. -/
def done (s : ExecState) : Except Unit (ExecState × List ExecEffect) :=
  if s.isDone then .ok (s, [])
  else
    let cancels : List ExecEffect :=
      if 0 < s.millisecondsToInput then [.cancelInput] else []
    match s.cmdStdin with
    | none => .error ()
    | some _ =>
        if s.doneChanClosed then .error ()
        else
          match s.cmdStderr with
          | none => .error ()
          | some _ =>
              match s.cmdStdout with
              | none => .error ()
              | some _ =>
                  .ok ({ s with isDone := true, doneChanClosed := true },
                       cancels ++ [.closeStdin, .closeDoneChan, .closeStderr, .closeStdout] ++
                       (if s.useNamedPipes && s.hasCommsHandler then [.programFinished] else []))

/-- External nondeterminism feeding one run of `Exec`: whether each of
the three stdio pipe creations, the named-pipe setup and the child spawn
succeed; the child's exit error (`none` for exit status 0) as returned
by `cmd.Wait`; and the kernel's `Interrupted` flag as loaded after the
wait. -/
structure ExecOracle where
  stdoutPipeOk : Bool
  stderrPipeOk : Bool
  stdinPipeOk : Bool
  namedPipesOk : Bool
  startOk : Bool
  childExitErr : Option String
  interrupted : Bool
deriving DecidableEq, Repr

/-- Runs the deferred `exec.done()` on the way out of `Exec` and returns
`result` with the accumulated trace; a panic inside the deferred call
supersedes the return value, as in Go. -/
def finishWith (s : ExecState) (acc : List ExecEffect) (result : Option String) :
    Except Unit (List ExecEffect × Option String) :=
  match done s with
  | .error _ => .error ()
  | .ok (_, es) => .ok (acc ++ es, result)

/-- Tail of `Exec` from `cmd.Start()` on: a spawn failure returns its
error through the deferred `done`; otherwise the interrupt subscription
is registered, the stream copiers and child are awaited, a non-zero exit
is published as streamed stderr text — prefixed with an interrupt marker
exactly when the kernel's `Interrupted` flag is set — the subscription
is removed, and nil is returned through the deferred `done`. -/
def execTail (o : ExecOracle) (s : ExecState) (acc : List ExecEffect) :
    Except Unit (List ExecEffect × Option String) :=
  if !o.startOk then
    finishWith s acc (some "failed to start to execute command")
  else
    let acc := acc ++ [.subscribeInterrupt]
    let acc := acc ++
      (match o.childExitErr with
       | some e =>
           [.publishStream "stderr" ((if o.interrupted then "^C\n" else "") ++ e ++ "\n")]
       | none => [])
    let acc := acc ++ [.unsubscribeInterrupt]
    finishWith s acc none

/-- Function `execRun` mirrors the synchronous control flow of `Executor.Exec`:
reset `isDone`, make a fresh `doneChan`, defer `done`, create the three
stdio pipes (each failure returning its error through the deferred
`done`), optionally set up named pipes and notify the comms handler of
the program start, then proceed with `execTail`. -/
def execRun (cfg : ExecConfig) (o : ExecOracle) :
    Except Unit (List ExecEffect × Option String) :=
  let s := initState cfg
  if !o.stdoutPipeOk then finishWith s [] (some "failed to create pipe for stdout")
  else
    let s := { s with cmdStdout := some () }
    if !o.stderrPipeOk then finishWith s [] (some "failed to create pipe for stderr")
    else
      let s := { s with cmdStderr := some () }
      if !o.stdinPipeOk then finishWith s [] (some "failed to create pipe for stdin")
      else
        let s := { s with cmdStdin := some () }
        if cfg.useNamedPipes then
          if !o.namedPipesOk then finishWith s [] (some "failed to create named pipes")
          else execTail o s (if cfg.hasCommsHandler then [.programStart] else [])
        else execTail o s []

/-- Streamed stderr texts in an `Exec` trace, in order. -/
def stderrTexts (es : List ExecEffect) : List String :=
  es.filterMap fun e =>
    match e with
    | .publishStream "stderr" t => some t
    | _ => none

/-! ## Interrupt escalation -/

/-- Target of a Unix signal: the child process itself
(`cmd.Process.Signal`), or its whole process group (a `kill` on the
negated group id, which the executor does not perform). -/
inductive SignalTarget
  | process
  | processGroup
deriving DecidableEq, Repr

/-- The two signals the interrupt path uses. -/
inductive UnixSignal
  | interrupt
  | kill
deriving DecidableEq, Repr

/-- Effects of the interrupt-subscription callback. -/
inductive InterruptEffect
  | signalChild (target : SignalTarget) (sig : UnixSignal)
  | unsubscribeSelf
deriving DecidableEq, Repr

/-- Nanoseconds in a second (`time.Second`). -/
def timeSecond : Nat := 1000000000

/-- Constant `WaitToKill` is the time to wait after an interrupt signal before
killing the process, mirroring the package variable's default. -/
def WaitToKill : Nat := 5 * timeSecond

/-- The closure registered with `SubscribeInterrupt` in `Exec`, statement
by statement: send an interrupt signal to the child process
(`cmd.Process.Signal(os.Interrupt)` signals the single process, not its
process group), unsubscribe the interrupt subscription, log any signal
error, then select between the completion channel and a `WaitToKill`
timer; `doneFiredFirst` says which side of the select wins, and on
timeout a SIGKILL is sent to the child process. -/
def interruptCallback (doneFiredFirst : Bool) : List InterruptEffect :=
  let es : List InterruptEffect := [.signalChild .process .interrupt]
  let es := es ++ [.unsubscribeSelf]
  if doneFiredFirst then es
  else es ++ [.signalChild .process .kill]

/-! ## Concrete fixtures used by witnesses -/

/-- A concrete header. -/
def headerW : zmqMsgHeader :=
  { MsgID := "m-1", Username := "u", Session := "s-1"
  , MsgType := "execute_request", ProtocolVersion := ProtocolVersion, Timestamp := "t0" }

/-- A concrete received message. -/
def msgW : MessageImpl :=
  { err := none
  , Composed := { Header := headerW, ParentHeader := headerW, Metadata := [], Content := .empty }
  , Identities := ["id-frame"] }

/-- A second concrete message, used as an incoming stdin answer. -/
def inpW : MessageImpl :=
  { err := none
  , Composed := { Header := { headerW with MsgID := "m-2", MsgType := "input_reply" }
                , ParentHeader := headerW, Metadata := [], Content := .empty }
  , Identities := ["id-frame"] }

/-- A fresh kernel: empty known-ids set, empty pending-input slot. -/
def kFresh : Kernel :=
  { KnownBlockIds := [], stdinMsg := none, stdinFn := none, ExecCounter := 0 }

/-- A kernel with a pending-input registration in the single slot. -/
def kRegW : Kernel :=
  { kFresh with stdinMsg := some msgW, stdinFn := some 7 }

/-- Display data carrying `transient.display_id = "id1"`. -/
def dW : Data :=
  { Data := [("text/plain", .str "x")], Metadata := []
  , Transient := [("display_id", .str "id1")] }

/-- Display data with no `display_id` in the transient map. -/
def dataNoId : Data := { Data := [], Metadata := [], Transient := [] }

/-- Display data whose `display_id` is not a string. -/
def dataBadId : Data :=
  { Data := [], Metadata := [], Transient := [("display_id", .int 3)] }

/-- The default configuration produced by `New` (no inputs, no named
pipes, no comms handler). -/
def cfgPlain : ExecConfig :=
  { millisecondsToInput := -1, useNamedPipes := false, hasCommsHandler := false }

/-- Configuration with named pipes and a comms handler enabled. -/
def cfgNamed : ExecConfig :=
  { millisecondsToInput := -1, useNamedPipes := true, hasCommsHandler := true }

/-- Oracle where every setup step succeeds, the child exits non-zero and
the kernel's interrupted flag is set. -/
def oExitW : ExecOracle :=
  { stdoutPipeOk := true, stderrPipeOk := true, stdinPipeOk := true
  , namedPipesOk := true, startOk := true
  , childExitErr := some "exit status 1", interrupted := true }

/-- Oracle where creating the stdout pipe fails. -/
def oStdoutFail : ExecOracle := { oExitW with stdoutPipeOk := false }

/-- Oracle where creating the stderr pipe fails. -/
def oStderrFail : ExecOracle := { oExitW with stderrPipeOk := false }

/-- Oracle where creating the stdin pipe fails. -/
def oStdinFail : ExecOracle := { oExitW with stdinPipeOk := false }

/-- Oracle where spawning the child fails. -/
def oStartFail : ExecOracle := { oExitW with startOk := false, childExitErr := none, interrupted := false }

/-- Executor state after a fully successful setup, as seen by the first
teardown trigger. -/
def sDoneW : ExecState :=
  { initState cfgPlain with cmdStdout := some (), cmdStderr := some (), cmdStdin := some () }

/-- The state `sDoneW` after one completed teardown. -/
def sDoneW' : ExecState :=
  { sDoneW with isDone := true, doneChanClosed := true }

/-! ## Theorems -/

/-- Claim C6: for every parent message and message type, the envelope
built by `NewComposed` has its parent-header equal to the parent's
header, and its own header's session id and username copied from the
parent's header, not regenerated. -/
theorem NewComposed_copies_parent_identity (msgType : String) (parent : ComposedMsg)
    (now freshId : String) :
    (NewComposed msgType parent now freshId).ParentHeader = parent.Header ∧
    (NewComposed msgType parent now freshId).Header.Session = parent.Header.Session ∧
    (NewComposed msgType parent now freshId).Header.Username = parent.Header.Username :=
  ⟨rfl, rfl, rfl⟩

/-- Claim C8: for every non-nil message and every data payload,
`PublishData` publishes with message type `"display_data"`; the
quantification over the whole message (in particular over its header's
`MsgType`) shows the published type never depends on the parent message
type — the `execute_result` branch is disabled in the source. -/
theorem PublishData_always_display_data (m : MessageImpl) (data : Data)
    (now freshId : String) :
    sentTypes (PublishData (some m) data now freshId).1 = ["display_data"] := rfl

/-- Claim C10: for every byte slice `p`, `jupyterStreamWriter.Write`
returns `(len p, nil)` unconditionally, whether or not the underlying
stream publish succeeds, so an `io.Writer` caller can never observe a
short write or an error from this sink. -/
theorem Write_returns_full_length_and_nil (w : jupyterStreamWriter) (p : String)
    (now freshId : String) (sendOk : Bool) :
    (w.Write p now freshId sendOk).2 = (p.length, none) := rfl

/-- Claim C2, counterexample: the claim says the interrupt subscription
sends an interrupt signal to the child *process group*; the callback
(`cmd.Process.Signal(os.Interrupt)` / `cmd.Process.Signal(syscall.SIGKILL)`)
signals only the child process itself — no process-group signal appears
in either possible trace of the callback. -/
theorem interruptCallback_never_signals_process_group :
    (∀ sig, InterruptEffect.signalChild .processGroup sig ∉ interruptCallback true) ∧
    (∀ sig, InterruptEffect.signalChild .processGroup sig ∉ interruptCallback false) ∧
    interruptCallback false =
      [.signalChild .process .interrupt, .unsubscribeSelf, .signalChild .process .kill] := by
  refine ⟨?_, ?_, rfl⟩ <;> intro sig <;> cases sig <;> decide

/-- Claim C2, amended: when the interrupt subscription fires it sends an
interrupt signal to the child *process* (not its process group) exactly
once, unregisters itself before waiting (so a repeated interrupt request
does not signal the child twice), then waits on the completion signal
against the fixed timeout `WaitToKill` (default 5 seconds); when the
timeout wins the race it sends a forced-kill signal to the child
process, and when completion wins no kill is sent. -/
theorem interruptCallback_escalation (doneFiredFirst : Bool) :
    (interruptCallback doneFiredFirst).count (.signalChild .process .interrupt) = 1 ∧
    (interruptCallback doneFiredFirst).take 2 =
      [.signalChild .process .interrupt, .unsubscribeSelf] ∧
    interruptCallback true = [.signalChild .process .interrupt, .unsubscribeSelf] ∧
    interruptCallback false =
      [.signalChild .process .interrupt, .unsubscribeSelf, .signalChild .process .kill] ∧
    WaitToKill = 5000000000 := by
  cases doneFiredFirst <;> decide

/-- Claim C9: `PublishUpdateDisplayData` is atomic on error — when the
transient map has no `"display_id"` key, or its value is not a string,
the call returns an error, publishes nothing, and leaves the kernel's
known-ids set (indeed the whole kernel state) unchanged. -/
theorem PublishUpdateDisplayData_error_atomic (k : Kernel) (msg : MessageImpl)
    (data : Data) (now freshId : String) :
    (data.Transient.lookup "display_id" = none →
      ∃ e, PublishUpdateDisplayData k msg data now freshId = (k, [], some e)) ∧
    (∀ v, data.Transient.lookup "display_id" = some v → (∀ s, v ≠ .str s) →
      ∃ e, PublishUpdateDisplayData k msg data now freshId = (k, [], some e)) := by
  constructor
  · intro h
    exact ⟨"PublishUpdateDisplayData without a Trasient[display_id] set!?",
      by simp [PublishUpdateDisplayData, h]⟩
  · intro v hv hns
    cases v with
    | str s => exact absurd rfl (hns s)
    | bool b =>
        exact ⟨"PublishUpdateDisplayData call with a Trasient[display_id] that is not string",
          by simp [PublishUpdateDisplayData, hv]⟩
    | int n =>
        exact ⟨"PublishUpdateDisplayData call with a Trasient[display_id] that is not string",
          by simp [PublishUpdateDisplayData, hv]⟩
    | other =>
        exact ⟨"PublishUpdateDisplayData call with a Trasient[display_id] that is not string",
          by simp [PublishUpdateDisplayData, hv]⟩

/-- Witness for C9: the missing-key and non-string cases at concrete
inputs, obtained by applying the claim theorem. -/
theorem PublishUpdateDisplayData_error_atomic_witness :
    (∃ e, PublishUpdateDisplayData kFresh msgW dataNoId "t1" "m-9" = (kFresh, [], some e)) ∧
    (∃ e, PublishUpdateDisplayData kFresh msgW dataBadId "t1" "m-9" = (kFresh, [], some e)) :=
  ⟨(PublishUpdateDisplayData_error_atomic kFresh msgW dataNoId "t1" "m-9").1 rfl,
   (PublishUpdateDisplayData_error_atomic kFresh msgW dataBadId "t1" "m-9").2
     (.int 3) (by decide) (fun s h => JValue.noConfusion h)⟩

/-- Claim C7: the pending-input registration is a single global slot —
`PromptInput` sends the `input_request` envelope on the stdin channel
and (on send success) stores its message and callback in the slot,
overwriting any previous registration (the kernel `k` is arbitrary, so
in particular it may already hold one); on send failure it registers
nothing; `DeliverInput` is a no-op returning nil when the slot is empty,
and otherwise invokes the registered callback with the original
requesting message and the incoming answer, leaving the registration in
place. -/
theorem PromptInput_DeliverInput_single_slot (k : Kernel) (m inp : MessageImpl)
    (prompt : String) (password : Bool) (fn : Nat) (now freshId : String)
    (cbResult : Option String) :
    ((PromptInput k m prompt password fn now freshId true).1.stdinMsg = some m ∧
     (PromptInput k m prompt password fn now freshId true).1.stdinFn = some fn ∧
     (∃ req, (PromptInput k m prompt password fn now freshId true).2.1 = [.send "stdin" req] ∧
        req.Header.MsgType = "input_request")) ∧
    ((PromptInput k m prompt password fn now freshId false).1 = k) ∧
    (k.stdinMsg = none → DeliverInput k inp cbResult = .ok (k, [], none)) ∧
    (∀ original fn', k.stdinMsg = some original → k.stdinFn = some fn' →
      DeliverInput k inp cbResult = .ok (k, [.invokeCallback fn' original inp], cbResult)) := by
  refine ⟨⟨rfl, rfl, ⟨_, rfl, rfl⟩⟩, rfl, ?_, ?_⟩
  · intro h
    simp [DeliverInput, h]
  · intro original fn' ho hf
    simp [DeliverInput, ho, hf]

/-- Witness for C7: the empty-slot no-op and the registered-slot
invocation at concrete inputs, obtained by applying the claim theorem. -/
theorem PromptInput_DeliverInput_single_slot_witness :
    DeliverInput kFresh inpW none = .ok (kFresh, [], none) ∧
    DeliverInput kRegW inpW none = .ok (kRegW, [.invokeCallback 7 msgW inpW], none) :=
  ⟨(PromptInput_DeliverInput_single_slot kFresh msgW inpW " " false 7 "t1" "m-9" none).2.2.1 rfl,
   (PromptInput_DeliverInput_single_slot kRegW msgW inpW " " false 7 "t1" "m-9" none).2.2.2
     msgW 7 rfl rfl⟩

/-- Claim C5: executor teardown runs its body exactly once per
execution — any invocation of `done` that completes leaves a state whose
lock-guarded `isDone` flag is set, and on such a state a repeated
invocation returns immediately with no effects: the completion channel
is not closed again and the comms handler is not notified a second
time. Repetition under the lock then makes any number of further
triggers no-ops. -/
theorem done_idempotent (s s' : ExecState) (es : List ExecEffect)
    (h : done s = .ok (s', es)) :
    s'.isDone = true ∧ done s' = .ok (s', []) := by
  unfold done at h
  by_cases hd : s.isDone
  · simp [hd] at h
    obtain ⟨hs, _⟩ := h
    subst hs
    constructor
    · exact hd
    · unfold done
      simp [hd]
  · simp [hd] at h
    rcases hin : s.cmdStdin with _ | u
    · rw [hin] at h
      simp at h
    · rw [hin] at h
      by_cases hdc : s.doneChanClosed
      · simp [hdc] at h
      · simp [hdc] at h
        rcases herr : s.cmdStderr with _ | u2
        · rw [herr] at h
          simp at h
        · rw [herr] at h
          rcases hout : s.cmdStdout with _ | u3
          · rw [hout] at h
            simp at h
          · rw [hout] at h
            simp at h
            obtain ⟨hs, _⟩ := h
            have hs' : s'.isDone = true := by rw [← hs]
            refine ⟨hs', ?_⟩
            unfold done
            simp [hs']

/-- Witness for C5: teardown of a concrete fully-set-up executor state,
followed by a second invocation that does nothing, obtained by applying
the claim theorem. -/
theorem done_idempotent_witness :
    sDoneW'.isDone = true ∧ done sDoneW' = .ok (sDoneW', []) :=
  done_idempotent sDoneW sDoneW'
    [.closeStdin, .closeDoneChan, .closeStderr, .closeStdout] rfl

/-- Helper: once a display id is in the known-ids set, every
`PublishUpdateDisplayData` call carrying it publishes an update and
leaves the kernel unchanged. -/
theorem puddSeq_all_updates (msg : MessageImpl) (nf : String × String) (dId : String) :
    ∀ (ds : List Data) (k : Kernel), k.KnownBlockIds.contains dId = true →
      (∀ d ∈ ds, d.Transient.lookup "display_id" = some (.str dId)) →
      (puddSeq k msg nf ds).2 = List.replicate ds.length "update_display_data" ∧
      (puddSeq k msg nf ds).1 = k := by
  intro ds
  induction ds with
  | nil => exact fun k _ _ => ⟨rfl, rfl⟩
  | cons d ds ih =>
      intro k hk hall
      have hk' : dId ∈ k.KnownBlockIds := by simpa using hk
      have hd : d.Transient.lookup "display_id" = some (.str dId) := hall d (by simp)
      have hrest := ih k hk (fun d' hd' => hall d' (by simp [hd']))
      simp [puddSeq, PublishUpdateDisplayData, hd, hk',
        MessageImpl.Publish, sentTypes, NewComposed, List.replicate_succ,
        hrest.1, hrest.2]

/-- Claim C4: on a kernel whose known-ids set is empty, a sequence of
`PublishUpdateDisplayData` calls all carrying transient
`display_id = dId` publishes message type `"display_data"` on the first
call — adding `dId` to the set — and `"update_display_data"` on every
subsequent call; in particular three calls yield exactly the types
`[display_data, update_display_data, update_display_data]` in order. -/
theorem PublishUpdateDisplayData_create_then_update
    (k : Kernel) (msg : MessageImpl) (nf : String × String) (dId : String)
    (d1 : Data) (ds : List Data) (hk : k.KnownBlockIds = [])
    (h1 : d1.Transient.lookup "display_id" = some (.str dId))
    (hall : ∀ d ∈ ds, d.Transient.lookup "display_id" = some (.str dId)) :
    (puddSeq k msg nf (d1 :: ds)).2 =
      "display_data" :: List.replicate ds.length "update_display_data" ∧
    (puddSeq k msg nf (d1 :: ds)).1.KnownBlockIds.contains dId = true := by
  have hnew : dId ∉ k.KnownBlockIds := by simp [hk]
  have hins : (dId :: k.KnownBlockIds).contains dId = true := by simp
  have hrest := puddSeq_all_updates msg nf dId ds
    { k with KnownBlockIds := dId :: k.KnownBlockIds } hins hall
  constructor
  · simp [puddSeq, PublishUpdateDisplayData, h1, hnew,
      MessageImpl.Publish, sentTypes, NewComposed, hrest.1]
  · simp [puddSeq, PublishUpdateDisplayData, h1, hnew, hrest.2]

/-- Witness for C4: three concrete calls with the same display id on a
fresh kernel, obtained by applying the claim theorem; `[dW, dW].length`
is `2`, so the published types are
`["display_data", "update_display_data", "update_display_data"]`. -/
theorem PublishUpdateDisplayData_create_then_update_witness :
    (puddSeq kFresh msgW ("t1", "m-9") [dW, dW, dW]).2 =
      "display_data" :: List.replicate 2 "update_display_data" ∧
    (puddSeq kFresh msgW ("t1", "m-9") [dW, dW, dW]).1.KnownBlockIds.contains "id1" = true :=
  PublishUpdateDisplayData_create_then_update kFresh msgW ("t1", "m-9") "id1" dW [dW, dW]
    rfl (by decide) (by decide)

/-- Claim C1, code evaluation: when creating any of the three stdio
pipes fails, the deferred `done()` dereferences the never-created nil
pipe handles (`cmdStdin.Close()` on a nil interface) and `Exec` panics
(`Except.error ()`) instead of returning the creation error — contrary
to the claim and to the source's own comment that the deferred `done` is
safe on setup-error paths. Only the spawn-failure leg behaves as claimed:
there all three pipes exist, teardown completes, and the spawn error is
returned. -/
theorem Exec_pipe_failure_panics_in_deferred_done :
    execRun cfgPlain oStdoutFail = .error () ∧
    execRun cfgPlain oStderrFail = .error () ∧
    execRun cfgPlain oStdinFail = .error () ∧
    execRun cfgPlain oStartFail =
      .ok ([.closeStdin, .closeDoneChan, .closeStderr, .closeStdout],
           some "failed to start to execute command") :=
  ⟨rfl, rfl, rfl, rfl⟩

/-- Helper: a completed teardown emits no streamed-text effects, and on
a state with all three pipe handles present it always completes. -/
theorem done_stderrTexts_nil (s s' : ExecState) (es : List ExecEffect)
    (h : done s = .ok (s', es)) : stderrTexts es = [] := by
  unfold done at h
  by_cases hd : s.isDone
  · simp [hd] at h
    rw [h.2]
    rfl
  · simp [hd] at h
    rcases hin : s.cmdStdin with _ | u <;> rw [hin] at h <;> simp at h
    by_cases hdc : s.doneChanClosed
    · simp [hdc] at h
    · simp [hdc] at h
      rcases herr : s.cmdStderr with _ | u2 <;> rw [herr] at h <;> simp at h
      rcases hout : s.cmdStdout with _ | u3 <;> rw [hout] at h <;> simp at h
      rw [← h.2]
      by_cases hms : (0 : Int) < s.millisecondsToInput <;>
        by_cases hnc : s.useNamedPipes = true ∧ s.hasCommsHandler = true <;>
          simp [hms, hnc, stderrTexts]

/-- Claim C3: for every configuration and every run that gets past setup
(the three stdio pipes, the named pipes when enabled, and the spawn all
succeed), `Exec` does not panic and returns nil even when the child
exits with a non-zero status; the child's exit error is published as
streamed stderr text, prefixed with `"^C\n"` exactly when the kernel's
`Interrupted` flag is set at that moment, and is never returned as
`Exec`'s error. -/
theorem Exec_returns_nil_past_setup (cfg : ExecConfig) (o : ExecOracle)
    (h1 : o.stdoutPipeOk = true) (h2 : o.stderrPipeOk = true)
    (h3 : o.stdinPipeOk = true) (h4 : o.startOk = true)
    (h5 : cfg.useNamedPipes = true → o.namedPipesOk = true) :
    (execRun cfg o).map (fun r => r.2) = .ok none ∧
    (execRun cfg o).map (fun r => stderrTexts r.1) =
      .ok (match o.childExitErr with
           | some e => [(if o.interrupted then "^C\n" else "") ++ e ++ "\n"]
           | none => []) := by
  rcases o with ⟨so, se, si, np, st, ce, intr⟩
  simp only at h1 h2 h3 h4
  subst h1; subst h2; subst h3; subst h4
  rcases cfg with ⟨ms, unp, ch⟩
  simp only [execRun, execTail, Bool.not_true, Bool.false_eq_true, if_false, ite_false]
  cases unp with
  | false =>
      cases hdn : done { initState ⟨ms, false, ch⟩ with
          cmdStdout := some (), cmdStderr := some (), cmdStdin := some () } with
      | error e =>
          exfalso
          revert hdn
          unfold done initState
          simp
      | ok p =>
          have hnil := done_stderrTexts_nil _ p.1 p.2 (by rw [hdn])
          simp only [stderrTexts] at hnil
          cases ce <;>
            simp [finishWith, hdn, Except.map, stderrTexts, hnil]
  | true =>
      have hnp : np = true := h5 rfl
      subst hnp
      simp only [if_true, ite_true, Bool.not_true, Bool.false_eq_true, if_false, ite_false]
      cases hdn : done { initState ⟨ms, true, ch⟩ with
          cmdStdout := some (), cmdStderr := some (), cmdStdin := some () } with
      | error e =>
          exfalso
          revert hdn
          unfold done initState
          simp
      | ok p =>
          have hnil := done_stderrTexts_nil _ p.1 p.2 (by rw [hdn])
          simp only [stderrTexts] at hnil
          cases ce <;> cases ch <;>
            simp [finishWith, hdn, Except.map, stderrTexts, hnil]

/-- Witness for C3: a concrete all-successful setup whose child exits
with status 1 while the interrupted flag is set; `Exec` returns nil and
the streamed stderr text carries the interrupt marker, obtained by
applying the claim theorem. -/
theorem Exec_returns_nil_past_setup_witness :
    (execRun cfgNamed oExitW).map (fun r => r.2) = .ok none ∧
    (execRun cfgNamed oExitW).map (fun r => stderrTexts r.1) = .ok ["^C\nexit status 1\n"] :=
  Exec_returns_nil_past_setup cfgNamed oExitW rfl rfl rfl rfl (fun _ => rfl)

end GonbProof
